import Mathlib

/-!
Shallow embedding of the comic-storyboarder action backend
(src/unnamed/part_000 over the tables of src/db/tables.ts).

The store is modelled as three lists of rows (projects, pages, panels).
Each action handler is a function from its input, the request context and
the store to `Except ActionError (result × store)`; a thrown `ActionError`
becomes `Except.error`.  Dates are modelled as `Nat` timestamps and the
generated UUID / the current time are passed to the handlers as explicit
parameters (`genId`, `now`), since the handlers use them as opaque values.
`db.select(...).where(...)` followed by `[x] = ...` destructuring is
modelled as `List.find?` (first matching row); `db.update ... .where`
maps the update over every matching row; `db.delete ... .where` filters
the matching rows out; `.returning()` destructured as `[x]` yields
`Option` (`undefined` becomes `none`).
-/

namespace ComicStoryboarder

/-- The authenticated user carried on `context.locals`. -/
structure User where
  id : String
deriving Repr, DecidableEq

/-- Request context: `locals.user` is absent for unauthenticated calls. -/
structure Ctx where
  user : Option User
deriving Repr, DecidableEq

/-- Error codes used by the actions (`BAD_REQUEST` stands for the input
validation failures raised before a handler body runs). -/
inductive ErrCode where
  | UNAUTHORIZED
  | NOT_FOUND
  | BAD_REQUEST
deriving Repr, DecidableEq

/-- `ActionError` with its stable code and human-readable message. -/
structure ActionError where
  code : ErrCode
  message : String
deriving Repr, DecidableEq

instance {ε α : Type} [DecidableEq ε] [DecidableEq α] : DecidableEq (Except ε α) :=
  fun x y =>
  match x, y with
  | Except.ok a, Except.ok b =>
    if h : a = b then isTrue (by rw [h])
    else isFalse (by intro hc; cases hc; exact h rfl)
  | Except.ok _, Except.error _ => isFalse (by intro hc; cases hc)
  | Except.error _, Except.ok _ => isFalse (by intro hc; cases hc)
  | Except.error e, Except.error f =>
    if h : e = f then isTrue (by rw [h])
    else isFalse (by intro hc; cases hc; exact h rfl)

/-- Row of the `ComicProjects` table. -/
structure ProjectRow where
  id : String
  userId : String
  title : String
  description : Option String
  genre : Option String
  format : Option String
  targetAudience : Option String
  createdAt : Nat
  updatedAt : Nat
deriving Repr, DecidableEq

/-- Row of the `ComicPages` table. -/
structure PageRow where
  id : String
  projectId : String
  pageNumber : Int
  title : Option String
  thumbnailUrl : Option String
  notes : Option String
  createdAt : Nat
  updatedAt : Nat
deriving Repr, DecidableEq

/-- Row of the `ComicPanels` table (no `updatedAt` column). -/
structure PanelRow where
  id : String
  pageId : String
  panelIndex : Int
  layoutJson : Option String
  description : Option String
  dialogue : Option String
  caption : Option String
  soundEffects : Option String
  createdAt : Nat
deriving Repr, DecidableEq

/-- The persistent store: the three tables. -/
structure DB where
  projects : List ProjectRow
  pages : List PageRow
  panels : List PanelRow
deriving Repr, DecidableEq

def unauthorizedErr : ActionError :=
  ⟨ErrCode.UNAUTHORIZED, "You must be signed in to perform this action."⟩

def projectNotFoundErr : ActionError :=
  ⟨ErrCode.NOT_FOUND, "Project not found."⟩

def pageNotFoundErr : ActionError :=
  ⟨ErrCode.NOT_FOUND, "Page not found."⟩

def panelNotFoundErr : ActionError :=
  ⟨ErrCode.NOT_FOUND, "Panel not found."⟩

/-- The refinement failure message shared by the three update inputs. -/
def atLeastOneFieldErr : ActionError :=
  ⟨ErrCode.BAD_REQUEST, "At least one field must be provided to update."⟩

/-- Stand-in for the schema-synthesised message of a base zod failure
(its exact text is produced by the validation library, not this code). -/
def invalidInputErr : ActionError :=
  ⟨ErrCode.BAD_REQUEST, "Invalid input."⟩

/-- `requireUser`: reads `context.locals.user`; throws UNAUTHORIZED when
absent. -/
def requireUser (ctx : Ctx) : Except ActionError User :=
  match ctx.user with
  | some user => Except.ok user
  | none => Except.error unauthorizedErr

/-- `getOwnedProject`: first project row matching id AND userId, or
NOT_FOUND. -/
def getOwnedProject (projectId userId : String) (db : DB) :
    Except ActionError ProjectRow :=
  match db.projects.find? (fun p => p.id == projectId && p.userId == userId) with
  | some project => Except.ok project
  | none => Except.error projectNotFoundErr

/-- `getOwnedPage`: resolves the project (propagating its failure), then
the first page row matching id AND projectId, or NOT_FOUND. -/
def getOwnedPage (pageId projectId userId : String) (db : DB) :
    Except ActionError PageRow :=
  match getOwnedProject projectId userId db with
  | Except.error e => Except.error e
  | Except.ok _ =>
    match db.pages.find? (fun p => p.id == pageId && p.projectId == projectId) with
    | some page => Except.ok page
    | none => Except.error pageNotFoundErr

/-! ## Action inputs (the zod object shapes; `Option` marks `.optional()`). -/

structure CreateProjectInput where
  title : String
  description : Option String
  genre : Option String
  format : Option String
  targetAudience : Option String
deriving Repr, DecidableEq

structure UpdateProjectInput where
  id : String
  title : Option String
  description : Option String
  genre : Option String
  format : Option String
  targetAudience : Option String
deriving Repr, DecidableEq

structure CreatePageInput where
  projectId : String
  pageNumber : Int
  title : Option String
  thumbnailUrl : Option String
  notes : Option String
deriving Repr, DecidableEq

structure UpdatePageInput where
  id : String
  projectId : String
  pageNumber : Option Int
  title : Option String
  thumbnailUrl : Option String
  notes : Option String
deriving Repr, DecidableEq

structure DeletePageInput where
  id : String
  projectId : String
deriving Repr, DecidableEq

structure ListPagesInput where
  projectId : String
deriving Repr, DecidableEq

structure CreatePanelInput where
  pageId : String
  projectId : String
  panelIndex : Int
  layoutJson : Option String
  description : Option String
  dialogue : Option String
  caption : Option String
  soundEffects : Option String
deriving Repr, DecidableEq

structure UpdatePanelInput where
  id : String
  pageId : String
  projectId : String
  panelIndex : Option Int
  layoutJson : Option String
  description : Option String
  dialogue : Option String
  caption : Option String
  soundEffects : Option String
deriving Repr, DecidableEq

structure DeletePanelInput where
  id : String
  pageId : String
  projectId : String
deriving Repr, DecidableEq

structure ListPanelsInput where
  pageId : String
  projectId : String
deriving Repr, DecidableEq

/-! ## Partial-update application (`.set({...(x !== undefined ? {..} : {})})`). -/

/-- The `set` object of `updateProject`: supplied fields replace, omitted
fields keep their value, `updatedAt` is always bumped. -/
def applyProjectUpdate (i : UpdateProjectInput) (p : ProjectRow) (now : Nat) :
    ProjectRow :=
  { p with
    title := i.title.getD p.title
    description := i.description.or p.description
    genre := i.genre.or p.genre
    format := i.format.or p.format
    targetAudience := i.targetAudience.or p.targetAudience
    updatedAt := now }

/-- The `set` object of `updatePage`. -/
def applyPageUpdate (i : UpdatePageInput) (p : PageRow) (now : Nat) : PageRow :=
  { p with
    pageNumber := i.pageNumber.getD p.pageNumber
    title := i.title.or p.title
    thumbnailUrl := i.thumbnailUrl.or p.thumbnailUrl
    notes := i.notes.or p.notes
    updatedAt := now }

/-- The `set` object of `updatePanel` (no timestamp column to bump). -/
def applyPanelUpdate (i : UpdatePanelInput) (p : PanelRow) : PanelRow :=
  { p with
    panelIndex := i.panelIndex.getD p.panelIndex
    layoutJson := i.layoutJson.or p.layoutJson
    description := i.description.or p.description
    dialogue := i.dialogue.or p.dialogue
    caption := i.caption.or p.caption
    soundEffects := i.soundEffects.or p.soundEffects }

/-! ## Handlers (the `handler:` bodies, after input validation). -/

/-- `createProject.handler`. -/
def createProjectHandler (i : CreateProjectInput) (ctx : Ctx) (db : DB)
    (genId : String) (now : Nat) : Except ActionError (ProjectRow × DB) :=
  match requireUser ctx with
  | Except.error e => Except.error e
  | Except.ok user =>
    let row : ProjectRow :=
      { id := genId, userId := user.id, title := i.title
        description := i.description, genre := i.genre, format := i.format
        targetAudience := i.targetAudience, createdAt := now, updatedAt := now }
    Except.ok (row, { db with projects := db.projects ++ [row] })

/-- `updateProject.handler`. -/
def updateProjectHandler (i : UpdateProjectInput) (ctx : Ctx) (db : DB)
    (now : Nat) : Except ActionError (Option ProjectRow × DB) :=
  match requireUser ctx with
  | Except.error e => Except.error e
  | Except.ok user =>
    match getOwnedProject i.id user.id db with
    | Except.error e => Except.error e
    | Except.ok _ =>
      let newProjects := db.projects.map
        (fun p => if p.id == i.id then applyProjectUpdate i p now else p)
      Except.ok (newProjects.find? (fun p => p.id == i.id),
        { db with projects := newProjects })

/-- `listProjects.handler`. -/
def listProjectsHandler (ctx : Ctx) (db : DB) :
    Except ActionError ((List ProjectRow × Nat) × DB) :=
  match requireUser ctx with
  | Except.error e => Except.error e
  | Except.ok user =>
    let items := db.projects.filter (fun p => p.userId == user.id)
    Except.ok ((items, items.length), db)

/-- `createPage.handler`. -/
def createPageHandler (i : CreatePageInput) (ctx : Ctx) (db : DB)
    (genId : String) (now : Nat) : Except ActionError (PageRow × DB) :=
  match requireUser ctx with
  | Except.error e => Except.error e
  | Except.ok user =>
    match getOwnedProject i.projectId user.id db with
    | Except.error e => Except.error e
    | Except.ok _ =>
      let row : PageRow :=
        { id := genId, projectId := i.projectId, pageNumber := i.pageNumber
          title := i.title, thumbnailUrl := i.thumbnailUrl, notes := i.notes
          createdAt := now, updatedAt := now }
      Except.ok (row, { db with pages := db.pages ++ [row] })

/-- `updatePage.handler`. -/
def updatePageHandler (i : UpdatePageInput) (ctx : Ctx) (db : DB)
    (now : Nat) : Except ActionError (Option PageRow × DB) :=
  match requireUser ctx with
  | Except.error e => Except.error e
  | Except.ok user =>
    match getOwnedPage i.id i.projectId user.id db with
    | Except.error e => Except.error e
    | Except.ok _ =>
      let newPages := db.pages.map
        (fun p => if p.id == i.id then applyPageUpdate i p now else p)
      Except.ok (newPages.find? (fun p => p.id == i.id),
        { db with pages := newPages })

/-- `deletePage.handler`: deletes the page row, then every panel row with
the page's id as `pageId`. -/
def deletePageHandler (i : DeletePageInput) (ctx : Ctx) (db : DB) :
    Except ActionError (Unit × DB) :=
  match requireUser ctx with
  | Except.error e => Except.error e
  | Except.ok user =>
    match getOwnedPage i.id i.projectId user.id db with
    | Except.error e => Except.error e
    | Except.ok _ =>
      let db1 := { db with pages := db.pages.filter (fun p => !(p.id == i.id)) }
      let db2 := { db1 with panels := db1.panels.filter (fun p => !(p.pageId == i.id)) }
      Except.ok ((), db2)

/-- `listPages.handler`. -/
def listPagesHandler (i : ListPagesInput) (ctx : Ctx) (db : DB) :
    Except ActionError ((List PageRow × Nat) × DB) :=
  match requireUser ctx with
  | Except.error e => Except.error e
  | Except.ok user =>
    match getOwnedProject i.projectId user.id db with
    | Except.error e => Except.error e
    | Except.ok _ =>
      let items := db.pages.filter (fun p => p.projectId == i.projectId)
      Except.ok ((items, items.length), db)

/-- `createPanel.handler`. -/
def createPanelHandler (i : CreatePanelInput) (ctx : Ctx) (db : DB)
    (genId : String) (now : Nat) : Except ActionError (PanelRow × DB) :=
  match requireUser ctx with
  | Except.error e => Except.error e
  | Except.ok user =>
    match getOwnedPage i.pageId i.projectId user.id db with
    | Except.error e => Except.error e
    | Except.ok _ =>
      let row : PanelRow :=
        { id := genId, pageId := i.pageId, panelIndex := i.panelIndex
          layoutJson := i.layoutJson, description := i.description
          dialogue := i.dialogue, caption := i.caption
          soundEffects := i.soundEffects, createdAt := now }
      Except.ok (row, { db with panels := db.panels ++ [row] })

/-- `updatePanel.handler`: after page resolution, an explicit existence
check of the panel by id, then the partial update scoped by id alone. -/
def updatePanelHandler (i : UpdatePanelInput) (ctx : Ctx) (db : DB) :
    Except ActionError (Option PanelRow × DB) :=
  match requireUser ctx with
  | Except.error e => Except.error e
  | Except.ok user =>
    match getOwnedPage i.pageId i.projectId user.id db with
    | Except.error e => Except.error e
    | Except.ok _ =>
      match db.panels.find? (fun p => p.id == i.id) with
      | none => Except.error panelNotFoundErr
      | some _ =>
        let newPanels := db.panels.map
          (fun p => if p.id == i.id then applyPanelUpdate i p else p)
        Except.ok (newPanels.find? (fun p => p.id == i.id),
          { db with panels := newPanels })

/-- `deletePanel.handler`: deletes by id alone; NOT_FOUND when the delete
affected zero rows. -/
def deletePanelHandler (i : DeletePanelInput) (ctx : Ctx) (db : DB) :
    Except ActionError (Unit × DB) :=
  match requireUser ctx with
  | Except.error e => Except.error e
  | Except.ok user =>
    match getOwnedPage i.pageId i.projectId user.id db with
    | Except.error e => Except.error e
    | Except.ok _ =>
      let rowsAffected := (db.panels.filter (fun p => p.id == i.id)).length
      let db1 := { db with panels := db.panels.filter (fun p => !(p.id == i.id)) }
      if rowsAffected == 0 then Except.error panelNotFoundErr
      else Except.ok ((), db1)

/-- `listPanels.handler`. -/
def listPanelsHandler (i : ListPanelsInput) (ctx : Ctx) (db : DB) :
    Except ActionError ((List PanelRow × Nat) × DB) :=
  match requireUser ctx with
  | Except.error e => Except.error e
  | Except.ok user =>
    match getOwnedPage i.pageId i.projectId user.id db with
    | Except.error e => Except.error e
    | Except.ok _ =>
      let items := db.panels.filter (fun p => p.pageId == i.pageId)
      Except.ok ((items, items.length), db)

/-! ## Input validation (the zod schemas and `.refine` predicates).
`z.string().min(1)` is a length-at-least-one check; `.optional()` fields
are checked only when present; `z.number().int()` is implicit in `Int`. -/

def createProjectValid (i : CreateProjectInput) : Bool :=
  1 ≤ i.title.length

def updateProjectBase (i : UpdateProjectInput) : Bool :=
  1 ≤ i.id.length &&
    (match i.title with | some t => 1 ≤ t.length | none => true)

/-- The `.refine` of `updateProject.input`: at least one mutable field. -/
def updateProjectRefine (i : UpdateProjectInput) : Bool :=
  i.title.isSome || i.description.isSome || i.genre.isSome ||
    i.format.isSome || i.targetAudience.isSome

def createPageValid (i : CreatePageInput) : Bool :=
  1 ≤ i.projectId.length && 1 ≤ i.pageNumber

def updatePageBase (i : UpdatePageInput) : Bool :=
  1 ≤ i.id.length && 1 ≤ i.projectId.length &&
    (match i.pageNumber with | some n => 1 ≤ n | none => true)

/-- The `.refine` of `updatePage.input`. -/
def updatePageRefine (i : UpdatePageInput) : Bool :=
  i.pageNumber.isSome || i.title.isSome || i.thumbnailUrl.isSome ||
    i.notes.isSome

def deletePageValid (i : DeletePageInput) : Bool :=
  1 ≤ i.id.length && 1 ≤ i.projectId.length

def listPagesValid (i : ListPagesInput) : Bool :=
  1 ≤ i.projectId.length

def createPanelValid (i : CreatePanelInput) : Bool :=
  1 ≤ i.pageId.length && 1 ≤ i.projectId.length

def updatePanelBase (i : UpdatePanelInput) : Bool :=
  1 ≤ i.id.length && 1 ≤ i.pageId.length && 1 ≤ i.projectId.length

/-- The `.refine` of `updatePanel.input`. -/
def updatePanelRefine (i : UpdatePanelInput) : Bool :=
  i.panelIndex.isSome || i.layoutJson.isSome || i.description.isSome ||
    i.dialogue.isSome || i.caption.isSome || i.soundEffects.isSome

def deletePanelValid (i : DeletePanelInput) : Bool :=
  1 ≤ i.id.length && 1 ≤ i.pageId.length && 1 ≤ i.projectId.length

def listPanelsValid (i : ListPanelsInput) : Bool :=
  1 ≤ i.pageId.length && 1 ≤ i.projectId.length

/-! ## Full actions: schema validation (base fields, then refinement)
runs before the handler body, as the action framework does. -/

def createProject (i : CreateProjectInput) (ctx : Ctx) (db : DB)
    (genId : String) (now : Nat) : Except ActionError (ProjectRow × DB) :=
  if createProjectValid i then createProjectHandler i ctx db genId now
  else Except.error invalidInputErr

def updateProject (i : UpdateProjectInput) (ctx : Ctx) (db : DB)
    (now : Nat) : Except ActionError (Option ProjectRow × DB) :=
  if updateProjectBase i then
    if updateProjectRefine i then updateProjectHandler i ctx db now
    else Except.error atLeastOneFieldErr
  else Except.error invalidInputErr

def listProjects (ctx : Ctx) (db : DB) :
    Except ActionError ((List ProjectRow × Nat) × DB) :=
  listProjectsHandler ctx db

def createPage (i : CreatePageInput) (ctx : Ctx) (db : DB)
    (genId : String) (now : Nat) : Except ActionError (PageRow × DB) :=
  if createPageValid i then createPageHandler i ctx db genId now
  else Except.error invalidInputErr

def updatePage (i : UpdatePageInput) (ctx : Ctx) (db : DB)
    (now : Nat) : Except ActionError (Option PageRow × DB) :=
  if updatePageBase i then
    if updatePageRefine i then updatePageHandler i ctx db now
    else Except.error atLeastOneFieldErr
  else Except.error invalidInputErr

def deletePage (i : DeletePageInput) (ctx : Ctx) (db : DB) :
    Except ActionError (Unit × DB) :=
  if deletePageValid i then deletePageHandler i ctx db
  else Except.error invalidInputErr

def listPages (i : ListPagesInput) (ctx : Ctx) (db : DB) :
    Except ActionError ((List PageRow × Nat) × DB) :=
  if listPagesValid i then listPagesHandler i ctx db
  else Except.error invalidInputErr

def createPanel (i : CreatePanelInput) (ctx : Ctx) (db : DB)
    (genId : String) (now : Nat) : Except ActionError (PanelRow × DB) :=
  if createPanelValid i then createPanelHandler i ctx db genId now
  else Except.error invalidInputErr

def updatePanel (i : UpdatePanelInput) (ctx : Ctx) (db : DB) :
    Except ActionError (Option PanelRow × DB) :=
  if updatePanelBase i then
    if updatePanelRefine i then updatePanelHandler i ctx db
    else Except.error atLeastOneFieldErr
  else Except.error invalidInputErr

def deletePanel (i : DeletePanelInput) (ctx : Ctx) (db : DB) :
    Except ActionError (Unit × DB) :=
  if deletePanelValid i then deletePanelHandler i ctx db
  else Except.error invalidInputErr

def listPanels (i : ListPanelsInput) (ctx : Ctx) (db : DB) :
    Except ActionError ((List PanelRow × Nat) × DB) :=
  if listPanelsValid i then listPanelsHandler i ctx db
  else Except.error invalidInputErr

/-! ## Operation traces: the eleven operations as a step relation on `DB`. -/

/-- One invocation of any of the eleven actions, with its request context
and the opaque values (fresh id, current time) the handler consumes. -/
inductive Op where
  | createProject (i : CreateProjectInput) (ctx : Ctx) (genId : String) (now : Nat)
  | updateProject (i : UpdateProjectInput) (ctx : Ctx) (now : Nat)
  | listProjects (ctx : Ctx)
  | createPage (i : CreatePageInput) (ctx : Ctx) (genId : String) (now : Nat)
  | updatePage (i : UpdatePageInput) (ctx : Ctx) (now : Nat)
  | deletePage (i : DeletePageInput) (ctx : Ctx)
  | listPages (i : ListPagesInput) (ctx : Ctx)
  | createPanel (i : CreatePanelInput) (ctx : Ctx) (genId : String) (now : Nat)
  | updatePanel (i : UpdatePanelInput) (ctx : Ctx)
  | deletePanel (i : DeletePanelInput) (ctx : Ctx)
  | listPanels (i : ListPanelsInput) (ctx : Ctx)
deriving Repr, DecidableEq

/-- The request context an operation carries. -/
def Op.ctxOf : Op → Ctx
  | .createProject _ ctx _ _ => ctx
  | .updateProject _ ctx _ => ctx
  | .listProjects ctx => ctx
  | .createPage _ ctx _ _ => ctx
  | .updatePage _ ctx _ => ctx
  | .deletePage _ ctx => ctx
  | .listPages _ ctx => ctx
  | .createPanel _ ctx _ _ => ctx
  | .updatePanel _ ctx => ctx
  | .deletePanel _ ctx => ctx
  | .listPanels _ ctx => ctx

/-- Whether an operation's input passes its schema validation. -/
def Op.valid : Op → Bool
  | .createProject i _ _ _ => createProjectValid i
  | .updateProject i _ _ => updateProjectBase i && updateProjectRefine i
  | .listProjects _ => true
  | .createPage i _ _ _ => createPageValid i
  | .updatePage i _ _ => updatePageBase i && updatePageRefine i
  | .deletePage i _ => deletePageValid i
  | .listPages i _ => listPagesValid i
  | .createPanel i _ _ _ => createPanelValid i
  | .updatePanel i _ => updatePanelBase i && updatePanelRefine i
  | .deletePanel i _ => deletePanelValid i
  | .listPanels i _ => listPanelsValid i

/-- Running an operation: the resulting store, or the error it raises
(every error path of the source leaves the store unchanged — the only
post-mutation throw, `deletePanel` with zero affected rows, deletes
nothing). -/
def opResult (o : Op) (db : DB) : Except ActionError DB :=
  match o with
  | .createProject i ctx g now => (createProject i ctx db g now).map (fun r => r.2)
  | .updateProject i ctx now => (updateProject i ctx db now).map (fun r => r.2)
  | .listProjects ctx => (listProjects ctx db).map (fun r => r.2)
  | .createPage i ctx g now => (createPage i ctx db g now).map (fun r => r.2)
  | .updatePage i ctx now => (updatePage i ctx db now).map (fun r => r.2)
  | .deletePage i ctx => (deletePage i ctx db).map (fun r => r.2)
  | .listPages i ctx => (listPages i ctx db).map (fun r => r.2)
  | .createPanel i ctx g now => (createPanel i ctx db g now).map (fun r => r.2)
  | .updatePanel i ctx => (updatePanel i ctx db).map (fun r => r.2)
  | .deletePanel i ctx => (deletePanel i ctx db).map (fun r => r.2)
  | .listPanels i ctx => (listPanels i ctx db).map (fun r => r.2)

/-- The store after an operation (unchanged when the operation fails). -/
def stateAfter (o : Op) (db : DB) : DB :=
  match opResult o db with
  | Except.ok db' => db'
  | Except.error _ => db

/-- The store after a sequence of operations. -/
def runOps (ops : List Op) (db : DB) : DB :=
  ops.foldl (fun d o => stateAfter o d) db

/-! ## Theorems about the embedded operations. -/

@[simp] lemma except_map_error {ε α β : Type} (f : α → β) (e : ε) :
    Except.map f (Except.error e : Except ε α) = Except.error e := rfl

@[simp] lemma except_map_ok {ε α β : Type} (f : α → β) (a : α) :
    Except.map f (Except.ok a : Except ε α) = Except.ok (f a) := rfl

/-! Every handler runs `requireUser` before anything else, so an
unauthenticated context makes each handler fail UNAUTHORIZED outright. -/

lemma createProjectHandler_unauth (i : CreateProjectInput) (ctx : Ctx) (db : DB)
    (g : String) (now : Nat) (h : ctx.user = none) :
    createProjectHandler i ctx db g now = Except.error unauthorizedErr := by
  simp [createProjectHandler, requireUser, h]

lemma updateProjectHandler_unauth (i : UpdateProjectInput) (ctx : Ctx) (db : DB)
    (now : Nat) (h : ctx.user = none) :
    updateProjectHandler i ctx db now = Except.error unauthorizedErr := by
  simp [updateProjectHandler, requireUser, h]

lemma listProjectsHandler_unauth (ctx : Ctx) (db : DB) (h : ctx.user = none) :
    listProjectsHandler ctx db = Except.error unauthorizedErr := by
  simp [listProjectsHandler, requireUser, h]

lemma createPageHandler_unauth (i : CreatePageInput) (ctx : Ctx) (db : DB)
    (g : String) (now : Nat) (h : ctx.user = none) :
    createPageHandler i ctx db g now = Except.error unauthorizedErr := by
  simp [createPageHandler, requireUser, h]

lemma updatePageHandler_unauth (i : UpdatePageInput) (ctx : Ctx) (db : DB)
    (now : Nat) (h : ctx.user = none) :
    updatePageHandler i ctx db now = Except.error unauthorizedErr := by
  simp [updatePageHandler, requireUser, h]

lemma deletePageHandler_unauth (i : DeletePageInput) (ctx : Ctx) (db : DB)
    (h : ctx.user = none) :
    deletePageHandler i ctx db = Except.error unauthorizedErr := by
  simp [deletePageHandler, requireUser, h]

lemma listPagesHandler_unauth (i : ListPagesInput) (ctx : Ctx) (db : DB)
    (h : ctx.user = none) :
    listPagesHandler i ctx db = Except.error unauthorizedErr := by
  simp [listPagesHandler, requireUser, h]

lemma createPanelHandler_unauth (i : CreatePanelInput) (ctx : Ctx) (db : DB)
    (g : String) (now : Nat) (h : ctx.user = none) :
    createPanelHandler i ctx db g now = Except.error unauthorizedErr := by
  simp [createPanelHandler, requireUser, h]

lemma updatePanelHandler_unauth (i : UpdatePanelInput) (ctx : Ctx) (db : DB)
    (h : ctx.user = none) :
    updatePanelHandler i ctx db = Except.error unauthorizedErr := by
  simp [updatePanelHandler, requireUser, h]

lemma deletePanelHandler_unauth (i : DeletePanelInput) (ctx : Ctx) (db : DB)
    (h : ctx.user = none) :
    deletePanelHandler i ctx db = Except.error unauthorizedErr := by
  simp [deletePanelHandler, requireUser, h]

lemma listPanelsHandler_unauth (i : ListPanelsInput) (ctx : Ctx) (db : DB)
    (h : ctx.user = none) :
    listPanelsHandler i ctx db = Except.error unauthorizedErr := by
  simp [listPanelsHandler, requireUser, h]

/-- C1: an operation whose request context carries no authenticated user
fails — with UNAUTHORIZED whenever its input passes schema validation —
and never mutates the store. -/
theorem unauthenticated_rejected (o : Op) (db : DB)
    (h : (Op.ctxOf o).user = none) :
    (Op.valid o = true → opResult o db = Except.error unauthorizedErr) ∧
    stateAfter o db = db := by
  have key : (Op.valid o = true → opResult o db = Except.error unauthorizedErr) ∧
      (∃ e, opResult o db = Except.error e) := by
    cases o with
    | createProject i ctx g now =>
      simp only [Op.ctxOf] at h
      have hh := createProjectHandler_unauth i ctx db g now h
      refine ⟨fun hv => ?_, ?_⟩
      · simp only [Op.valid] at hv
        simp [opResult, createProject, hv, hh]
      · by_cases hv : createProjectValid i
        · exact ⟨unauthorizedErr, by simp [opResult, createProject, hv, hh]⟩
        · exact ⟨invalidInputErr, by simp [opResult, createProject, hv]⟩
    | updateProject i ctx now =>
      simp only [Op.ctxOf] at h
      have hh := updateProjectHandler_unauth i ctx db now h
      refine ⟨fun hv => ?_, ?_⟩
      · simp only [Op.valid, Bool.and_eq_true] at hv
        simp [opResult, updateProject, hv.1, hv.2, hh]
      · by_cases hb : updateProjectBase i
        · by_cases hr : updateProjectRefine i
          · exact ⟨unauthorizedErr, by simp [opResult, updateProject, hb, hr, hh]⟩
          · exact ⟨atLeastOneFieldErr, by simp [opResult, updateProject, hb, hr]⟩
        · exact ⟨invalidInputErr, by simp [opResult, updateProject, hb]⟩
    | listProjects ctx =>
      simp only [Op.ctxOf] at h
      have hh := listProjectsHandler_unauth ctx db h
      exact ⟨fun _ => by simp [opResult, listProjects, hh],
        ⟨unauthorizedErr, by simp [opResult, listProjects, hh]⟩⟩
    | createPage i ctx g now =>
      simp only [Op.ctxOf] at h
      have hh := createPageHandler_unauth i ctx db g now h
      refine ⟨fun hv => ?_, ?_⟩
      · simp only [Op.valid] at hv
        simp [opResult, createPage, hv, hh]
      · by_cases hv : createPageValid i
        · exact ⟨unauthorizedErr, by simp [opResult, createPage, hv, hh]⟩
        · exact ⟨invalidInputErr, by simp [opResult, createPage, hv]⟩
    | updatePage i ctx now =>
      simp only [Op.ctxOf] at h
      have hh := updatePageHandler_unauth i ctx db now h
      refine ⟨fun hv => ?_, ?_⟩
      · simp only [Op.valid, Bool.and_eq_true] at hv
        simp [opResult, updatePage, hv.1, hv.2, hh]
      · by_cases hb : updatePageBase i
        · by_cases hr : updatePageRefine i
          · exact ⟨unauthorizedErr, by simp [opResult, updatePage, hb, hr, hh]⟩
          · exact ⟨atLeastOneFieldErr, by simp [opResult, updatePage, hb, hr]⟩
        · exact ⟨invalidInputErr, by simp [opResult, updatePage, hb]⟩
    | deletePage i ctx =>
      simp only [Op.ctxOf] at h
      have hh := deletePageHandler_unauth i ctx db h
      refine ⟨fun hv => ?_, ?_⟩
      · simp only [Op.valid] at hv
        simp [opResult, deletePage, hv, hh]
      · by_cases hv : deletePageValid i
        · exact ⟨unauthorizedErr, by simp [opResult, deletePage, hv, hh]⟩
        · exact ⟨invalidInputErr, by simp [opResult, deletePage, hv]⟩
    | listPages i ctx =>
      simp only [Op.ctxOf] at h
      have hh := listPagesHandler_unauth i ctx db h
      refine ⟨fun hv => ?_, ?_⟩
      · simp only [Op.valid] at hv
        simp [opResult, listPages, hv, hh]
      · by_cases hv : listPagesValid i
        · exact ⟨unauthorizedErr, by simp [opResult, listPages, hv, hh]⟩
        · exact ⟨invalidInputErr, by simp [opResult, listPages, hv]⟩
    | createPanel i ctx g now =>
      simp only [Op.ctxOf] at h
      have hh := createPanelHandler_unauth i ctx db g now h
      refine ⟨fun hv => ?_, ?_⟩
      · simp only [Op.valid] at hv
        simp [opResult, createPanel, hv, hh]
      · by_cases hv : createPanelValid i
        · exact ⟨unauthorizedErr, by simp [opResult, createPanel, hv, hh]⟩
        · exact ⟨invalidInputErr, by simp [opResult, createPanel, hv]⟩
    | updatePanel i ctx =>
      simp only [Op.ctxOf] at h
      have hh := updatePanelHandler_unauth i ctx db h
      refine ⟨fun hv => ?_, ?_⟩
      · simp only [Op.valid, Bool.and_eq_true] at hv
        simp [opResult, updatePanel, hv.1, hv.2, hh]
      · by_cases hb : updatePanelBase i
        · by_cases hr : updatePanelRefine i
          · exact ⟨unauthorizedErr, by simp [opResult, updatePanel, hb, hr, hh]⟩
          · exact ⟨atLeastOneFieldErr, by simp [opResult, updatePanel, hb, hr]⟩
        · exact ⟨invalidInputErr, by simp [opResult, updatePanel, hb]⟩
    | deletePanel i ctx =>
      simp only [Op.ctxOf] at h
      have hh := deletePanelHandler_unauth i ctx db h
      refine ⟨fun hv => ?_, ?_⟩
      · simp only [Op.valid] at hv
        simp [opResult, deletePanel, hv, hh]
      · by_cases hv : deletePanelValid i
        · exact ⟨unauthorizedErr, by simp [opResult, deletePanel, hv, hh]⟩
        · exact ⟨invalidInputErr, by simp [opResult, deletePanel, hv]⟩
    | listPanels i ctx =>
      simp only [Op.ctxOf] at h
      have hh := listPanelsHandler_unauth i ctx db h
      refine ⟨fun hv => ?_, ?_⟩
      · simp only [Op.valid] at hv
        simp [opResult, listPanels, hv, hh]
      · by_cases hv : listPanelsValid i
        · exact ⟨unauthorizedErr, by simp [opResult, listPanels, hv, hh]⟩
        · exact ⟨invalidInputErr, by simp [opResult, listPanels, hv]⟩
  refine ⟨key.1, ?_⟩
  obtain ⟨e, he⟩ := key.2
  simp [stateAfter, he]

/-- C1 witness: an unauthenticated `deletePage` call on a store holding a
page fails UNAUTHORIZED and leaves the store unchanged. -/
theorem unauthenticated_rejected_witness :
    (Op.ctxOf (Op.deletePage ⟨"pg1", "p1"⟩ ⟨none⟩)).user = none ∧
    ((Op.valid (Op.deletePage ⟨"pg1", "p1"⟩ ⟨none⟩) = true →
        opResult (Op.deletePage ⟨"pg1", "p1"⟩ ⟨none⟩)
            (DB.mk [] [⟨"pg1", "p1", 1, none, none, none, 0, 0⟩] []) =
          Except.error unauthorizedErr) ∧
      stateAfter (Op.deletePage ⟨"pg1", "p1"⟩ ⟨none⟩)
          (DB.mk [] [⟨"pg1", "p1", 1, none, none, none, 0, 0⟩] []) =
        DB.mk [] [⟨"pg1", "p1", 1, none, none, none, 0, 0⟩] []) :=
  ⟨rfl,
    unauthenticated_rejected (Op.deletePage ⟨"pg1", "p1"⟩ ⟨none⟩)
      (DB.mk [] [⟨"pg1", "p1", 1, none, none, none, 0, 0⟩] []) rfl⟩

/-- C3: if no project row has both the given id and the given owner,
`getOwnedProject` fails NOT_FOUND — in particular also when a project
with that id exists under a different owner. -/
theorem getOwnedProject_not_owned_not_found (projectId userId : String)
    (db : DB)
    (h : ∀ p ∈ db.projects, ¬(p.id = projectId ∧ p.userId = userId)) :
    getOwnedProject projectId userId db = Except.error projectNotFoundErr := by
  have hnone :
      db.projects.find? (fun p => p.id == projectId && p.userId == userId) = none := by
    rw [List.find?_eq_none]
    intro p hp
    simp only [Bool.and_eq_true, beq_iff_eq, not_and]
    intro h1 h2
    exact h p hp ⟨h1, h2⟩
  simp [getOwnedProject, hnone]

/-- C3 witness: a store holding a project with the requested id but a
different owner; resolution for the requesting user still fails NOT_FOUND. -/
theorem getOwnedProject_not_owned_not_found_witness :
    (∀ p ∈ (DB.mk [⟨"p1", "u2", "T", none, none, none, none, 0, 0⟩] [] []).projects,
        ¬(p.id = "p1" ∧ p.userId = "u1")) ∧
    getOwnedProject "p1" "u1"
        (DB.mk [⟨"p1", "u2", "T", none, none, none, none, 0, 0⟩] [] []) =
      Except.error projectNotFoundErr :=
  ⟨by decide,
    getOwnedProject_not_owned_not_found "p1" "u1"
      (DB.mk [⟨"p1", "u2", "T", none, none, none, none, 0, 0⟩] [] []) (by decide)⟩

/-- C4: `getOwnedPage` first resolves the project, propagating its failure
unchanged; when the project resolves but no page row has both the given id
and the given projectId (in particular when the page exists under another
project), it fails NOT_FOUND. -/
theorem getOwnedPage_resolution (pageId projectId userId : String) (db : DB) :
    (∀ e, getOwnedProject projectId userId db = Except.error e →
      getOwnedPage pageId projectId userId db = Except.error e) ∧
    (∀ pr, getOwnedProject projectId userId db = Except.ok pr →
      (∀ pg ∈ db.pages, ¬(pg.id = pageId ∧ pg.projectId = projectId)) →
      getOwnedPage pageId projectId userId db = Except.error pageNotFoundErr) := by
  constructor
  · intro e he
    simp [getOwnedPage, he]
  · intro pr hpr hpages
    have hnone :
        db.pages.find? (fun p => p.id == pageId && p.projectId == projectId) = none := by
      rw [List.find?_eq_none]
      intro p hp
      simp only [Bool.and_eq_true, beq_iff_eq, not_and]
      intro h1 h2
      exact hpages p hp ⟨h1, h2⟩
    simp [getOwnedPage, hpr, hnone]

/-- C4 witness: a store whose project resolves for the caller but whose
only page with the requested id lives under a different project; page
resolution fails NOT_FOUND. -/
theorem getOwnedPage_resolution_witness :
    getOwnedProject "p1" "u1"
        (DB.mk [⟨"p1", "u1", "T", none, none, none, none, 0, 0⟩]
          [⟨"pg1", "p2", 1, none, none, none, 0, 0⟩] []) =
      Except.ok ⟨"p1", "u1", "T", none, none, none, none, 0, 0⟩ ∧
    getOwnedPage "pg1" "p1" "u1"
        (DB.mk [⟨"p1", "u1", "T", none, none, none, none, 0, 0⟩]
          [⟨"pg1", "p2", 1, none, none, none, 0, 0⟩] []) =
      Except.error pageNotFoundErr :=
  ⟨by decide,
    (getOwnedPage_resolution "pg1" "p1" "u1"
        (DB.mk [⟨"p1", "u1", "T", none, none, none, none, 0, 0⟩]
          [⟨"pg1", "p2", 1, none, none, none, 0, 0⟩] [])).2
      ⟨"p1", "u1", "T", none, none, none, none, 0, 0⟩ (by decide) (by decide)⟩

/-- C7: an updateProject, updatePage or updatePanel call whose input passes
the base schema but supplies none of the operation's mutable fields is
rejected by the `.refine` with the message "At least one field must be
provided to update.", and the store is untouched. -/
theorem update_empty_payload_rejected :
    (∀ (i : UpdateProjectInput) (ctx : Ctx) (db : DB) (now : Nat),
      updateProjectBase i = true →
      i.title = none → i.description = none → i.genre = none →
      i.format = none → i.targetAudience = none →
      updateProject i ctx db now = Except.error atLeastOneFieldErr ∧
      stateAfter (Op.updateProject i ctx now) db = db) ∧
    (∀ (i : UpdatePageInput) (ctx : Ctx) (db : DB) (now : Nat),
      updatePageBase i = true →
      i.pageNumber = none → i.title = none → i.thumbnailUrl = none →
      i.notes = none →
      updatePage i ctx db now = Except.error atLeastOneFieldErr ∧
      stateAfter (Op.updatePage i ctx now) db = db) ∧
    (∀ (i : UpdatePanelInput) (ctx : Ctx) (db : DB),
      updatePanelBase i = true →
      i.panelIndex = none → i.layoutJson = none → i.description = none →
      i.dialogue = none → i.caption = none → i.soundEffects = none →
      updatePanel i ctx db = Except.error atLeastOneFieldErr ∧
      stateAfter (Op.updatePanel i ctx) db = db) := by
  refine ⟨?_, ?_, ?_⟩
  · intro i ctx db now hb h1 h2 h3 h4 h5
    have hr : updateProjectRefine i = false := by
      simp [updateProjectRefine, h1, h2, h3, h4, h5]
    have hact : updateProject i ctx db now = Except.error atLeastOneFieldErr := by
      simp [updateProject, hb, hr]
    exact ⟨hact, by simp [stateAfter, opResult, hact]⟩
  · intro i ctx db now hb h1 h2 h3 h4
    have hr : updatePageRefine i = false := by
      simp [updatePageRefine, h1, h2, h3, h4]
    have hact : updatePage i ctx db now = Except.error atLeastOneFieldErr := by
      simp [updatePage, hb, hr]
    exact ⟨hact, by simp [stateAfter, opResult, hact]⟩
  · intro i ctx db hb h1 h2 h3 h4 h5 h6
    have hr : updatePanelRefine i = false := by
      simp [updatePanelRefine, h1, h2, h3, h4, h5, h6]
    have hact : updatePanel i ctx db = Except.error atLeastOneFieldErr := by
      simp [updatePanel, hb, hr]
    exact ⟨hact, by simp [stateAfter, opResult, hact]⟩

/-- C7 witness: an updateProject call supplying only the id is rejected
with the refinement message and leaves a one-project store unchanged. -/
theorem update_empty_payload_rejected_witness :
    updateProjectBase ⟨"p1", none, none, none, none, none⟩ = true ∧
    (updateProject ⟨"p1", none, none, none, none, none⟩ ⟨some ⟨"u1"⟩⟩
        (DB.mk [⟨"p1", "u1", "T", none, none, none, none, 0, 0⟩] [] []) 5 =
      Except.error atLeastOneFieldErr ∧
    stateAfter
        (Op.updateProject ⟨"p1", none, none, none, none, none⟩ ⟨some ⟨"u1"⟩⟩ 5)
        (DB.mk [⟨"p1", "u1", "T", none, none, none, none, 0, 0⟩] [] []) =
      DB.mk [⟨"p1", "u1", "T", none, none, none, none, 0, 0⟩] [] []) :=
  ⟨by decide,
    update_empty_payload_rejected.1 ⟨"p1", none, none, none, none, none⟩
      ⟨some ⟨"u1"⟩⟩ (DB.mk [⟨"p1", "u1", "T", none, none, none, none, 0, 0⟩] [] [])
      5 (by decide) rfl rfl rfl rfl rfl⟩

/-- C9: after the authorization gate and page resolution succeed,
updatePanel separately checks panel existence by id and fails NOT_FOUND
with no update executed when no such panel exists; by contrast, for
updateProject and updatePage a successful resolution alone already
guarantees the handler succeeds — they perform no further existence
check. -/
theorem updatePanel_existence_check :
    (∀ (i : UpdatePanelInput) (ctx : Ctx) (db : DB) (u : User) (pg : PageRow),
      ctx.user = some u →
      getOwnedPage i.pageId i.projectId u.id db = Except.ok pg →
      db.panels.find? (fun p => p.id == i.id) = none →
      updatePanelHandler i ctx db = Except.error panelNotFoundErr ∧
      stateAfter (Op.updatePanel i ctx) db = db) ∧
    (∀ (i : UpdateProjectInput) (ctx : Ctx) (db : DB) (now : Nat) (u : User)
        (pr : ProjectRow),
      ctx.user = some u →
      getOwnedProject i.id u.id db = Except.ok pr →
      ∃ d db', updateProjectHandler i ctx db now = Except.ok (d, db')) ∧
    (∀ (i : UpdatePageInput) (ctx : Ctx) (db : DB) (now : Nat) (u : User)
        (pg : PageRow),
      ctx.user = some u →
      getOwnedPage i.id i.projectId u.id db = Except.ok pg →
      ∃ d db', updatePageHandler i ctx db now = Except.ok (d, db')) := by
  refine ⟨?_, ?_, ?_⟩
  · intro i ctx db u pg hu hpg hfind
    have hh : updatePanelHandler i ctx db = Except.error panelNotFoundErr := by
      simp [updatePanelHandler, requireUser, hu, hpg, hfind]
    refine ⟨hh, ?_⟩
    by_cases hb : updatePanelBase i
    · by_cases hr : updatePanelRefine i
      · simp [stateAfter, opResult, updatePanel, hb, hr, hh]
      · simp [stateAfter, opResult, updatePanel, hb, hr]
    · simp [stateAfter, opResult, updatePanel, hb]
  · intro i ctx db now u pr hu hpr
    refine ⟨(db.projects.map
        (fun p => if p.id == i.id then applyProjectUpdate i p now else p)).find?
          (fun p => p.id == i.id),
      { db with projects := (db.projects.map
          (fun p => if p.id == i.id then applyProjectUpdate i p now else p)) }, ?_⟩
    simp [updateProjectHandler, requireUser, hu, hpr]
  · intro i ctx db now u pg hu hpg
    refine ⟨(db.pages.map
        (fun p => if p.id == i.id then applyPageUpdate i p now else p)).find?
          (fun p => p.id == i.id),
      { db with pages := (db.pages.map
          (fun p => if p.id == i.id then applyPageUpdate i p now else p)) }, ?_⟩
    simp [updatePageHandler, requireUser, hu, hpg]

/-- C9 witness: a resolved chain with no panel of the requested id makes
updatePanel fail NOT_FOUND and leave the store unchanged. -/
theorem updatePanel_existence_check_witness :
    (⟨some ⟨"u1"⟩⟩ : Ctx).user = some ⟨"u1"⟩ ∧
    getOwnedPage "pg1" "p1" "u1"
        (DB.mk [⟨"p1", "u1", "T", none, none, none, none, 0, 0⟩]
          [⟨"pg1", "p1", 1, none, none, none, 0, 0⟩] []) =
      Except.ok ⟨"pg1", "p1", 1, none, none, none, 0, 0⟩ ∧
    (updatePanelHandler
        ⟨"pa1", "pg1", "p1", some 2, none, none, none, none, none⟩
        ⟨some ⟨"u1"⟩⟩
        (DB.mk [⟨"p1", "u1", "T", none, none, none, none, 0, 0⟩]
          [⟨"pg1", "p1", 1, none, none, none, 0, 0⟩] []) =
      Except.error panelNotFoundErr ∧
    stateAfter
        (Op.updatePanel ⟨"pa1", "pg1", "p1", some 2, none, none, none, none, none⟩
          ⟨some ⟨"u1"⟩⟩)
        (DB.mk [⟨"p1", "u1", "T", none, none, none, none, 0, 0⟩]
          [⟨"pg1", "p1", 1, none, none, none, 0, 0⟩] []) =
      DB.mk [⟨"p1", "u1", "T", none, none, none, none, 0, 0⟩]
        [⟨"pg1", "p1", 1, none, none, none, 0, 0⟩] []) :=
  ⟨rfl, by decide,
    updatePanel_existence_check.1
      ⟨"pa1", "pg1", "p1", some 2, none, none, none, none, none⟩ ⟨some ⟨"u1"⟩⟩
      (DB.mk [⟨"p1", "u1", "T", none, none, none, none, 0, 0⟩]
        [⟨"pg1", "p1", 1, none, none, none, 0, 0⟩] [])
      ⟨"u1"⟩ ⟨"pg1", "p1", 1, none, none, none, 0, 0⟩ rfl (by decide) rfl⟩

/-- C6: with the chain resolved, deletePanel fails NOT_FOUND exactly when
no panel row has the given id (the delete affects zero rows); when one
exists the call succeeds, every row with that id is gone, and no
successful listPanels result on the new store contains a panel with that
id. -/
theorem deletePanel_semantics (i : DeletePanelInput) (ctx : Ctx) (db : DB)
    (u : User) (pg : PageRow) (hu : ctx.user = some u)
    (hpg : getOwnedPage i.pageId i.projectId u.id db = Except.ok pg) :
    (deletePanelHandler i ctx db = Except.error panelNotFoundErr ↔
      ∀ p ∈ db.panels, ¬ p.id = i.id) ∧
    ((∃ p ∈ db.panels, p.id = i.id) →
      ∃ db', deletePanelHandler i ctx db = Except.ok ((), db') ∧
        (∀ p ∈ db'.panels, ¬ p.id = i.id) ∧
        ∀ (j : ListPanelsInput) (out : List PanelRow × Nat) (db2 : DB),
          listPanelsHandler j ctx db' = Except.ok (out, db2) →
          ∀ p ∈ out.1, ¬ p.id = i.id) := by
  have hred : deletePanelHandler i ctx db =
      (if (db.panels.filter (fun p => p.id == i.id)).length == 0
       then Except.error panelNotFoundErr
       else Except.ok ((),
        { db with panels := (db.panels.filter (fun p => !(p.id == i.id))) })) := by
    simp only [deletePanelHandler, requireUser, hu, hpg]
  have hiff : (((db.panels.filter (fun p => p.id == i.id)).length == 0) = true) ↔
      ∀ p ∈ db.panels, ¬ p.id = i.id := by
    simp [List.length_eq_zero, List.filter_eq_nil_iff]
  constructor
  · rw [hred]
    by_cases hc : ((db.panels.filter (fun p => p.id == i.id)).length == 0) = true
    · rw [if_pos hc]
      exact ⟨fun _ => hiff.mp hc, fun _ => rfl⟩
    · rw [if_neg hc]
      constructor
      · intro h; exact absurd h (by simp)
      · intro hall; exact absurd (hiff.mpr hall) hc
  · rintro ⟨p0, hp0, hid0⟩
    have hc : ¬ (((db.panels.filter (fun p => p.id == i.id)).length == 0) = true) := by
      intro hc
      exact (hiff.mp hc) p0 hp0 hid0
    refine ⟨{ db with panels := (db.panels.filter (fun p => !(p.id == i.id))) },
      ?_, ?_, ?_⟩
    · rw [hred, if_neg hc]
    · intro p hp
      have hmem := List.mem_filter.mp hp
      simpa using hmem.2
    · intro j out db2 hok p hp
      simp only [listPanelsHandler, requireUser, hu] at hok
      cases hgp2 : getOwnedPage j.pageId j.projectId u.id
          { db with panels := (db.panels.filter (fun p => !(p.id == i.id))) } with
      | error e =>
        rw [hgp2] at hok
        exact absurd hok (by simp)
      | ok pg2 =>
        rw [hgp2] at hok
        simp only [Except.ok.injEq, Prod.mk.injEq] at hok
        obtain ⟨h1, -⟩ := hok
        have hp1 : p ∈ ({ db with
            panels := (db.panels.filter (fun p => !(p.id == i.id))) } : DB).panels.filter
              (fun q => q.pageId == j.pageId) := by
          rw [← h1] at hp
          exact hp
        have hp2 := (List.mem_filter.mp hp1).1
        have hmem := List.mem_filter.mp hp2
        simpa using hmem.2

/-- C6 witness: a one-panel store; deleting its panel succeeds, deleting it
again (on the new store the id is absent) would be NOT_FOUND via the iff,
and the listPanels result no longer contains the id. -/
theorem deletePanel_semantics_witness :
    (⟨some ⟨"u1"⟩⟩ : Ctx).user = some ⟨"u1"⟩ ∧
    getOwnedPage "pg1" "p1" "u1"
        (DB.mk [⟨"p1", "u1", "T", none, none, none, none, 0, 0⟩]
          [⟨"pg1", "p1", 1, none, none, none, 0, 0⟩]
          [⟨"pa1", "pg1", 0, none, none, none, none, none, 0⟩]) =
      Except.ok ⟨"pg1", "p1", 1, none, none, none, 0, 0⟩ ∧
    ((deletePanelHandler ⟨"pa1", "pg1", "p1"⟩ ⟨some ⟨"u1"⟩⟩
        (DB.mk [⟨"p1", "u1", "T", none, none, none, none, 0, 0⟩]
          [⟨"pg1", "p1", 1, none, none, none, 0, 0⟩]
          [⟨"pa1", "pg1", 0, none, none, none, none, none, 0⟩]) =
        Except.error panelNotFoundErr ↔
      ∀ p ∈ (DB.mk [⟨"p1", "u1", "T", none, none, none, none, 0, 0⟩]
          [⟨"pg1", "p1", 1, none, none, none, 0, 0⟩]
          [⟨"pa1", "pg1", 0, none, none, none, none, none, 0⟩]).panels,
        ¬ p.id = "pa1") ∧
    ((∃ p ∈ (DB.mk [⟨"p1", "u1", "T", none, none, none, none, 0, 0⟩]
          [⟨"pg1", "p1", 1, none, none, none, 0, 0⟩]
          [⟨"pa1", "pg1", 0, none, none, none, none, none, 0⟩]).panels,
        p.id = "pa1") →
      ∃ db', deletePanelHandler ⟨"pa1", "pg1", "p1"⟩ ⟨some ⟨"u1"⟩⟩
          (DB.mk [⟨"p1", "u1", "T", none, none, none, none, 0, 0⟩]
            [⟨"pg1", "p1", 1, none, none, none, 0, 0⟩]
            [⟨"pa1", "pg1", 0, none, none, none, none, none, 0⟩]) =
          Except.ok ((), db') ∧
        (∀ p ∈ db'.panels, ¬ p.id = "pa1") ∧
        ∀ (j : ListPanelsInput) (out : List PanelRow × Nat) (db2 : DB),
          listPanelsHandler j ⟨some ⟨"u1"⟩⟩ db' = Except.ok (out, db2) →
          ∀ p ∈ out.1, ¬ p.id = "pa1")) :=
  ⟨rfl, by decide,
    deletePanel_semantics ⟨"pa1", "pg1", "p1"⟩ ⟨some ⟨"u1"⟩⟩
      (DB.mk [⟨"p1", "u1", "T", none, none, none, none, 0, 0⟩]
        [⟨"pg1", "p1", 1, none, none, none, 0, 0⟩]
        [⟨"pa1", "pg1", 0, none, none, none, none, none, 0⟩])
      ⟨"u1"⟩ ⟨"pg1", "p1", 1, none, none, none, 0, 0⟩ rfl (by decide)⟩

/-- C5 counterexample: deleting the only page of an owned project succeeds
and removes the page and its panel, but a subsequent listPanels call for
the very same pageId fails NOT_FOUND (the page no longer resolves) instead
of returning an empty item list. -/
theorem deletePage_then_listPanels_counterexample :
    deletePageHandler ⟨"pg1", "p1"⟩ ⟨some ⟨"u1"⟩⟩
        (DB.mk [⟨"p1", "u1", "T", none, none, none, none, 0, 0⟩]
          [⟨"pg1", "p1", 1, none, none, none, 0, 0⟩]
          [⟨"pa1", "pg1", 0, none, none, none, none, none, 0⟩]) =
      Except.ok ((),
        DB.mk [⟨"p1", "u1", "T", none, none, none, none, 0, 0⟩] [] []) ∧
    listPanelsHandler ⟨"pg1", "p1"⟩ ⟨some ⟨"u1"⟩⟩
        (DB.mk [⟨"p1", "u1", "T", none, none, none, none, 0, 0⟩] [] []) =
      Except.error pageNotFoundErr := by
  exact ⟨by decide, by decide⟩

/-- C5 (amended): deleting a Page with id=P for an authenticated owner of
the resolved chain removes the page row and every panel row with pageId=P;
a subsequent listPanels call for the same pageId then fails NOT_FOUND,
because the page no longer resolves. -/
theorem deletePage_cascade (i : DeletePageInput) (ctx : Ctx) (db : DB)
    (u : User) (pg : PageRow) (hu : ctx.user = some u)
    (hpg : getOwnedPage i.id i.projectId u.id db = Except.ok pg) :
    ∃ db', deletePageHandler i ctx db = Except.ok ((), db') ∧
      (∀ p ∈ db'.pages, ¬ p.id = i.id) ∧
      (∀ p ∈ db'.panels, ¬ p.pageId = i.id) ∧
      listPanelsHandler ⟨i.id, i.projectId⟩ ctx db' =
        Except.error pageNotFoundErr := by
  refine ⟨{ db with
      pages := (db.pages.filter (fun p => !(p.id == i.id)))
      panels := (db.panels.filter (fun p => !(p.pageId == i.id))) },
    ?_, ?_, ?_, ?_⟩
  · simp only [deletePageHandler, requireUser, hu, hpg]
  · intro p hp
    have hmem := List.mem_filter.mp hp
    simpa using hmem.2
  · intro p hp
    have hmem := List.mem_filter.mp hp
    simpa using hmem.2
  · have hgp : ∃ pr, getOwnedProject i.projectId u.id db = Except.ok pr := by
      unfold getOwnedPage at hpg
      cases hgp0 : getOwnedProject i.projectId u.id db with
      | error e => rw [hgp0] at hpg; exact absurd hpg (by simp)
      | ok pr => exact ⟨pr, rfl⟩
    obtain ⟨pr, hpr⟩ := hgp
    have hfind : ((db.pages.filter (fun p => !(p.id == i.id))).find?
        (fun p => p.id == i.id && p.projectId == i.projectId)) = none := by
      rw [List.find?_eq_none]
      intro p hp
      have hmem := List.mem_filter.mp hp
      simp only [Bool.not_eq_eq_eq_not, Bool.not_true, beq_eq_false_iff_ne,
        ne_eq] at hmem
      simp only [Bool.and_eq_true, beq_iff_eq, not_and]
      intro h1
      exact absurd h1 hmem.2
    simp only [listPanelsHandler, requireUser, hu, getOwnedPage]
    have hpr' : getOwnedProject i.projectId u.id
        ({ db with
          pages := (db.pages.filter (fun p => !(p.id == i.id)))
          panels := (db.panels.filter (fun p => !(p.pageId == i.id))) } : DB) =
        Except.ok pr := hpr
    rw [hpr']
    simp only [hfind]

/-- C5 witness (for the amended claim): a concrete one-page, one-panel
store; the deletion succeeds, removes everything under the page, and the
follow-up listPanels fails NOT_FOUND. -/
theorem deletePage_cascade_witness :
    (⟨some ⟨"u1"⟩⟩ : Ctx).user = some ⟨"u1"⟩ ∧
    getOwnedPage "pg1" "p1" "u1"
        (DB.mk [⟨"p1", "u1", "T", none, none, none, none, 0, 0⟩]
          [⟨"pg1", "p1", 1, none, none, none, 0, 0⟩]
          [⟨"pa1", "pg1", 0, none, none, none, none, none, 0⟩]) =
      Except.ok ⟨"pg1", "p1", 1, none, none, none, 0, 0⟩ ∧
    (∃ db', deletePageHandler ⟨"pg1", "p1"⟩ ⟨some ⟨"u1"⟩⟩
        (DB.mk [⟨"p1", "u1", "T", none, none, none, none, 0, 0⟩]
          [⟨"pg1", "p1", 1, none, none, none, 0, 0⟩]
          [⟨"pa1", "pg1", 0, none, none, none, none, none, 0⟩]) =
        Except.ok ((), db') ∧
      (∀ p ∈ db'.pages, ¬ p.id = "pg1") ∧
      (∀ p ∈ db'.panels, ¬ p.pageId = "pg1") ∧
      listPanelsHandler ⟨"pg1", "p1"⟩ ⟨some ⟨"u1"⟩⟩ db' =
        Except.error pageNotFoundErr) :=
  ⟨rfl, by decide,
    deletePage_cascade ⟨"pg1", "p1"⟩ ⟨some ⟨"u1"⟩⟩
      (DB.mk [⟨"p1", "u1", "T", none, none, none, none, 0, 0⟩]
        [⟨"pg1", "p1", 1, none, none, none, 0, 0⟩]
        [⟨"pa1", "pg1", 0, none, none, none, none, none, 0⟩])
      ⟨"u1"⟩ ⟨"pg1", "p1", 1, none, none, none, 0, 0⟩ rfl (by decide)⟩

/-- C2: once the supplied projectId/pageId chain resolves for the caller,
updatePanel and deletePanel select their target by the panel id alone: a
panel row whose pageId differs from the supplied pageId — including one
hanging under another user's page — is still updated resp. deleted. -/
theorem panel_ops_select_by_id_alone :
    (∀ (i : UpdatePanelInput) (ctx : Ctx) (db : DB) (u : User) (pg : PageRow)
        (r : PanelRow),
      ctx.user = some u →
      getOwnedPage i.pageId i.projectId u.id db = Except.ok pg →
      r ∈ db.panels → r.id = i.id → ¬ r.pageId = i.pageId →
      ∃ d db', updatePanelHandler i ctx db = Except.ok (d, db') ∧
        applyPanelUpdate i r ∈ db'.panels) ∧
    (∀ (i : DeletePanelInput) (ctx : Ctx) (db : DB) (u : User) (pg : PageRow)
        (r : PanelRow),
      ctx.user = some u →
      getOwnedPage i.pageId i.projectId u.id db = Except.ok pg →
      r ∈ db.panels → r.id = i.id → ¬ r.pageId = i.pageId →
      ∃ db', deletePanelHandler i ctx db = Except.ok ((), db') ∧
        ∀ p ∈ db'.panels, ¬ p.id = i.id) := by
  constructor
  · intro i ctx db u pg r hu hpg hr hid hpage
    have hsome : (db.panels.find? (fun p => p.id == i.id)).isSome := by
      rw [List.find?_isSome]
      exact ⟨r, hr, by simp [hid]⟩
    obtain ⟨p0, hp0⟩ := Option.isSome_iff_exists.mp hsome
    refine ⟨((db.panels.map
        (fun p => if p.id == i.id then applyPanelUpdate i p else p)).find?
          (fun p => p.id == i.id)),
      { db with panels := (db.panels.map
          (fun p => if p.id == i.id then applyPanelUpdate i p else p)) },
      ?_, ?_⟩
    · simp only [updatePanelHandler, requireUser, hu, hpg, hp0]
    · have hmap := List.mem_map_of_mem
        (fun p => if p.id == i.id then applyPanelUpdate i p else p) hr
      simpa [hid] using hmap
  · intro i ctx db u pg r hu hpg hr hid hpage
    have hc : ¬ (((db.panels.filter (fun p => p.id == i.id)).length == 0) = true) := by
      simp only [beq_iff_eq, List.length_eq_zero, List.filter_eq_nil_iff]
      intro hall
      exact absurd (by simp [hid]) (hall r hr)
    refine ⟨{ db with panels := (db.panels.filter (fun p => !(p.id == i.id))) },
      ?_, ?_⟩
    · simp only [deletePanelHandler, requireUser, hu, hpg]
      rw [if_neg hc]
    · intro p hp
      have hmem := List.mem_filter.mp hp
      simpa using hmem.2

/-- C2 witness: user u1 owns project p1 with page pg1; the only panel row
pa1 hangs under pg2, a page of u2's project p2; u1's updatePanel call with
the pg1/p1 chain still rewrites pa1, and the deletePanel call removes it. -/
theorem panel_ops_select_by_id_alone_witness :
    (⟨some ⟨"u1"⟩⟩ : Ctx).user = some ⟨"u1"⟩ ∧
    getOwnedPage "pg1" "p1" "u1"
        (DB.mk [⟨"p1", "u1", "T", none, none, none, none, 0, 0⟩,
            ⟨"p2", "u2", "S", none, none, none, none, 0, 0⟩]
          [⟨"pg1", "p1", 1, none, none, none, 0, 0⟩,
            ⟨"pg2", "p2", 1, none, none, none, 0, 0⟩]
          [⟨"pa1", "pg2", 0, none, none, none, none, none, 0⟩]) =
      Except.ok ⟨"pg1", "p1", 1, none, none, none, 0, 0⟩ ∧
    ⟨"pa1", "pg2", 0, none, none, none, none, none, 0⟩ ∈
      (DB.mk [⟨"p1", "u1", "T", none, none, none, none, 0, 0⟩,
          ⟨"p2", "u2", "S", none, none, none, none, 0, 0⟩]
        [⟨"pg1", "p1", 1, none, none, none, 0, 0⟩,
          ⟨"pg2", "p2", 1, none, none, none, 0, 0⟩]
        [⟨"pa1", "pg2", 0, none, none, none, none, none, 0⟩]).panels ∧
    (∃ d db', updatePanelHandler
        ⟨"pa1", "pg1", "p1", none, none, some "hacked", none, none, none⟩
        ⟨some ⟨"u1"⟩⟩
        (DB.mk [⟨"p1", "u1", "T", none, none, none, none, 0, 0⟩,
            ⟨"p2", "u2", "S", none, none, none, none, 0, 0⟩]
          [⟨"pg1", "p1", 1, none, none, none, 0, 0⟩,
            ⟨"pg2", "p2", 1, none, none, none, 0, 0⟩]
          [⟨"pa1", "pg2", 0, none, none, none, none, none, 0⟩]) =
        Except.ok (d, db') ∧
      applyPanelUpdate
          ⟨"pa1", "pg1", "p1", none, none, some "hacked", none, none, none⟩
          ⟨"pa1", "pg2", 0, none, none, none, none, none, 0⟩ ∈ db'.panels) :=
  ⟨rfl, by decide, by decide,
    panel_ops_select_by_id_alone.1
      ⟨"pa1", "pg1", "p1", none, none, some "hacked", none, none, none⟩
      ⟨some ⟨"u1"⟩⟩
      (DB.mk [⟨"p1", "u1", "T", none, none, none, none, 0, 0⟩,
          ⟨"p2", "u2", "S", none, none, none, none, 0, 0⟩]
        [⟨"pg1", "p1", 1, none, none, none, 0, 0⟩,
          ⟨"pg2", "p2", 1, none, none, none, 0, 0⟩]
        [⟨"pa1", "pg2", 0, none, none, none, none, none, 0⟩])
      ⟨"u1"⟩ ⟨"pg1", "p1", 1, none, none, none, 0, 0⟩
      ⟨"pa1", "pg2", 0, none, none, none, none, none, 0⟩
      rfl (by decide) (by decide) rfl (by decide)⟩

/-! Inversion lemmas: what a successful handler call says about the
resulting store. -/

lemma requireUser_ok {ctx : Ctx} {u : User} (h : requireUser ctx = Except.ok u) :
    ctx.user = some u := by
  unfold requireUser at h
  cases hcu : ctx.user with
  | none => rw [hcu] at h; exact absurd h (by simp)
  | some v => simp only [hcu] at h; simp only [Except.ok.injEq] at h; rw [h]

lemma createProjectHandler_ok {i : CreateProjectInput} {ctx : Ctx} {db : DB}
    {g : String} {now : Nat} {d : ProjectRow} {db' : DB}
    (h : createProjectHandler i ctx db g now = Except.ok (d, db')) :
    db' = { db with projects := db.projects ++ [d] } ∧
    ∃ u, ctx.user = some u ∧ d.userId = u.id := by
  unfold createProjectHandler at h
  cases hru : requireUser ctx with
  | error e => simp only [hru] at h; exact absurd h (by simp)
  | ok user =>
    simp only [hru] at h
    simp only [Except.ok.injEq, Prod.mk.injEq] at h
    obtain ⟨h1, h2⟩ := h
    subst h1
    exact ⟨h2.symm, user, requireUser_ok hru, rfl⟩

lemma updateProjectHandler_ok {i : UpdateProjectInput} {ctx : Ctx} {db : DB}
    {now : Nat} {d : Option ProjectRow} {db' : DB}
    (h : updateProjectHandler i ctx db now = Except.ok (d, db')) :
    db'.projects = db.projects.map
      (fun p => if p.id == i.id then applyProjectUpdate i p now else p) ∧
    db'.pages = db.pages ∧ db'.panels = db.panels := by
  unfold updateProjectHandler at h
  cases hru : requireUser ctx with
  | error e => simp only [hru] at h; exact absurd h (by simp)
  | ok user =>
    simp only [hru] at h
    cases hgp : getOwnedProject i.id user.id db with
    | error e => simp only [hgp] at h; exact absurd h (by simp)
    | ok pr =>
      simp only [hgp] at h
      simp only [Except.ok.injEq, Prod.mk.injEq] at h
      obtain ⟨-, h2⟩ := h
      rw [← h2]
      exact ⟨rfl, rfl, rfl⟩

lemma listProjectsHandler_ok {ctx : Ctx} {db : DB}
    {d : List ProjectRow × Nat} {db' : DB}
    (h : listProjectsHandler ctx db = Except.ok (d, db')) : db' = db := by
  unfold listProjectsHandler at h
  cases hru : requireUser ctx with
  | error e => simp only [hru] at h; exact absurd h (by simp)
  | ok user =>
    simp only [hru] at h
    simp only [Except.ok.injEq, Prod.mk.injEq] at h
    exact h.2.symm

lemma createPageHandler_ok {i : CreatePageInput} {ctx : Ctx} {db : DB}
    {g : String} {now : Nat} {d : PageRow} {db' : DB}
    (h : createPageHandler i ctx db g now = Except.ok (d, db')) :
    db' = { db with pages := db.pages ++ [d] } := by
  unfold createPageHandler at h
  cases hru : requireUser ctx with
  | error e => simp only [hru] at h; exact absurd h (by simp)
  | ok user =>
    simp only [hru] at h
    cases hgp : getOwnedProject i.projectId user.id db with
    | error e => simp only [hgp] at h; exact absurd h (by simp)
    | ok pr =>
      simp only [hgp] at h
      simp only [Except.ok.injEq, Prod.mk.injEq] at h
      obtain ⟨h1, h2⟩ := h
      subst h1
      exact h2.symm

lemma updatePageHandler_ok {i : UpdatePageInput} {ctx : Ctx} {db : DB}
    {now : Nat} {d : Option PageRow} {db' : DB}
    (h : updatePageHandler i ctx db now = Except.ok (d, db')) :
    db'.pages = db.pages.map
      (fun p => if p.id == i.id then applyPageUpdate i p now else p) ∧
    db'.projects = db.projects ∧ db'.panels = db.panels := by
  unfold updatePageHandler at h
  cases hru : requireUser ctx with
  | error e => simp only [hru] at h; exact absurd h (by simp)
  | ok user =>
    simp only [hru] at h
    cases hgp : getOwnedPage i.id i.projectId user.id db with
    | error e => simp only [hgp] at h; exact absurd h (by simp)
    | ok pg =>
      simp only [hgp] at h
      simp only [Except.ok.injEq, Prod.mk.injEq] at h
      obtain ⟨-, h2⟩ := h
      rw [← h2]
      exact ⟨rfl, rfl, rfl⟩

lemma deletePageHandler_ok {i : DeletePageInput} {ctx : Ctx} {db : DB}
    {db' : DB} (h : deletePageHandler i ctx db = Except.ok ((), db')) :
    db' = { db with
      pages := (db.pages.filter (fun p => !(p.id == i.id)))
      panels := (db.panels.filter (fun p => !(p.pageId == i.id))) } := by
  unfold deletePageHandler at h
  cases hru : requireUser ctx with
  | error e => simp only [hru] at h; exact absurd h (by simp)
  | ok user =>
    simp only [hru] at h
    cases hgp : getOwnedPage i.id i.projectId user.id db with
    | error e => simp only [hgp] at h; exact absurd h (by simp)
    | ok pg =>
      simp only [hgp] at h
      simp only [Except.ok.injEq, Prod.mk.injEq] at h
      exact h.2.symm

lemma listPagesHandler_ok {i : ListPagesInput} {ctx : Ctx} {db : DB}
    {d : List PageRow × Nat} {db' : DB}
    (h : listPagesHandler i ctx db = Except.ok (d, db')) : db' = db := by
  unfold listPagesHandler at h
  cases hru : requireUser ctx with
  | error e => simp only [hru] at h; exact absurd h (by simp)
  | ok user =>
    simp only [hru] at h
    cases hgp : getOwnedProject i.projectId user.id db with
    | error e => simp only [hgp] at h; exact absurd h (by simp)
    | ok pr =>
      simp only [hgp] at h
      simp only [Except.ok.injEq, Prod.mk.injEq] at h
      exact h.2.symm

lemma createPanelHandler_ok {i : CreatePanelInput} {ctx : Ctx} {db : DB}
    {g : String} {now : Nat} {d : PanelRow} {db' : DB}
    (h : createPanelHandler i ctx db g now = Except.ok (d, db')) :
    db' = { db with panels := db.panels ++ [d] } := by
  unfold createPanelHandler at h
  cases hru : requireUser ctx with
  | error e => simp only [hru] at h; exact absurd h (by simp)
  | ok user =>
    simp only [hru] at h
    cases hgp : getOwnedPage i.pageId i.projectId user.id db with
    | error e => simp only [hgp] at h; exact absurd h (by simp)
    | ok pg =>
      simp only [hgp] at h
      simp only [Except.ok.injEq, Prod.mk.injEq] at h
      obtain ⟨h1, h2⟩ := h
      subst h1
      exact h2.symm

lemma updatePanelHandler_ok {i : UpdatePanelInput} {ctx : Ctx} {db : DB}
    {d : Option PanelRow} {db' : DB}
    (h : updatePanelHandler i ctx db = Except.ok (d, db')) :
    db'.panels = db.panels.map
      (fun p => if p.id == i.id then applyPanelUpdate i p else p) ∧
    db'.projects = db.projects ∧ db'.pages = db.pages := by
  unfold updatePanelHandler at h
  cases hru : requireUser ctx with
  | error e => simp only [hru] at h; exact absurd h (by simp)
  | ok user =>
    simp only [hru] at h
    cases hgp : getOwnedPage i.pageId i.projectId user.id db with
    | error e => simp only [hgp] at h; exact absurd h (by simp)
    | ok pg =>
      simp only [hgp] at h
      cases hf : db.panels.find? (fun p => p.id == i.id) with
      | none => simp only [hf] at h; exact absurd h (by simp)
      | some p0 =>
        simp only [hf] at h
        simp only [Except.ok.injEq, Prod.mk.injEq] at h
        obtain ⟨-, h2⟩ := h
        rw [← h2]
        exact ⟨rfl, rfl, rfl⟩

lemma deletePanelHandler_ok {i : DeletePanelInput} {ctx : Ctx} {db : DB}
    {db' : DB} (h : deletePanelHandler i ctx db = Except.ok ((), db')) :
    db' = { db with panels := (db.panels.filter (fun p => !(p.id == i.id))) } := by
  unfold deletePanelHandler at h
  cases hru : requireUser ctx with
  | error e => simp only [hru] at h; exact absurd h (by simp)
  | ok user =>
    simp only [hru] at h
    cases hgp : getOwnedPage i.pageId i.projectId user.id db with
    | error e => simp only [hgp] at h; exact absurd h (by simp)
    | ok pg =>
      simp only [hgp] at h
      by_cases hc : ((db.panels.filter (fun p => p.id == i.id)).length == 0) = true
      · rw [if_pos hc] at h; exact absurd h (by simp)
      · rw [if_neg hc] at h
        simp only [Except.ok.injEq, Prod.mk.injEq] at h
        exact h.2.symm

lemma listPanelsHandler_ok {i : ListPanelsInput} {ctx : Ctx} {db : DB}
    {d : List PanelRow × Nat} {db' : DB}
    (h : listPanelsHandler i ctx db = Except.ok (d, db')) : db' = db := by
  unfold listPanelsHandler at h
  cases hru : requireUser ctx with
  | error e => simp only [hru] at h; exact absurd h (by simp)
  | ok user =>
    simp only [hru] at h
    cases hgp : getOwnedPage i.pageId i.projectId user.id db with
    | error e => simp only [hgp] at h; exact absurd h (by simp)
    | ok pg =>
      simp only [hgp] at h
      simp only [Except.ok.injEq, Prod.mk.injEq] at h
      exact h.2.symm

/-- C8: a successful update replaces exactly the supplied fields of every
row carrying the target id: unsupplied fields keep their previous value,
supplied ones take the new value, identity and creation data are
untouched, and updatedAt is bumped for projects and pages (panels carry no
timestamp). -/
theorem partial_update_preserves_fields :
    (∀ (i : UpdateProjectInput) (ctx : Ctx) (db : DB) (now : Nat)
        (d : Option ProjectRow) (db' : DB),
      updateProjectHandler i ctx db now = Except.ok (d, db') →
      ∀ r ∈ db.projects, r.id = i.id →
        ∃ r' ∈ db'.projects,
          r'.id = r.id ∧ r'.userId = r.userId ∧ r'.createdAt = r.createdAt ∧
          r'.updatedAt = now ∧
          (i.title = none → r'.title = r.title) ∧
          (∀ v, i.title = some v → r'.title = v) ∧
          (i.description = none → r'.description = r.description) ∧
          (∀ v, i.description = some v → r'.description = some v) ∧
          (i.genre = none → r'.genre = r.genre) ∧
          (∀ v, i.genre = some v → r'.genre = some v) ∧
          (i.format = none → r'.format = r.format) ∧
          (∀ v, i.format = some v → r'.format = some v) ∧
          (i.targetAudience = none → r'.targetAudience = r.targetAudience) ∧
          (∀ v, i.targetAudience = some v → r'.targetAudience = some v)) ∧
    (∀ (i : UpdatePageInput) (ctx : Ctx) (db : DB) (now : Nat)
        (d : Option PageRow) (db' : DB),
      updatePageHandler i ctx db now = Except.ok (d, db') →
      ∀ r ∈ db.pages, r.id = i.id →
        ∃ r' ∈ db'.pages,
          r'.id = r.id ∧ r'.projectId = r.projectId ∧
          r'.createdAt = r.createdAt ∧ r'.updatedAt = now ∧
          (i.pageNumber = none → r'.pageNumber = r.pageNumber) ∧
          (∀ v, i.pageNumber = some v → r'.pageNumber = v) ∧
          (i.title = none → r'.title = r.title) ∧
          (∀ v, i.title = some v → r'.title = some v) ∧
          (i.thumbnailUrl = none → r'.thumbnailUrl = r.thumbnailUrl) ∧
          (∀ v, i.thumbnailUrl = some v → r'.thumbnailUrl = some v) ∧
          (i.notes = none → r'.notes = r.notes) ∧
          (∀ v, i.notes = some v → r'.notes = some v)) ∧
    (∀ (i : UpdatePanelInput) (ctx : Ctx) (db : DB)
        (d : Option PanelRow) (db' : DB),
      updatePanelHandler i ctx db = Except.ok (d, db') →
      ∀ r ∈ db.panels, r.id = i.id →
        ∃ r' ∈ db'.panels,
          r'.id = r.id ∧ r'.pageId = r.pageId ∧ r'.createdAt = r.createdAt ∧
          (i.panelIndex = none → r'.panelIndex = r.panelIndex) ∧
          (∀ v, i.panelIndex = some v → r'.panelIndex = v) ∧
          (i.layoutJson = none → r'.layoutJson = r.layoutJson) ∧
          (∀ v, i.layoutJson = some v → r'.layoutJson = some v) ∧
          (i.description = none → r'.description = r.description) ∧
          (∀ v, i.description = some v → r'.description = some v) ∧
          (i.dialogue = none → r'.dialogue = r.dialogue) ∧
          (∀ v, i.dialogue = some v → r'.dialogue = some v) ∧
          (i.caption = none → r'.caption = r.caption) ∧
          (∀ v, i.caption = some v → r'.caption = some v) ∧
          (i.soundEffects = none → r'.soundEffects = r.soundEffects) ∧
          (∀ v, i.soundEffects = some v → r'.soundEffects = some v)) := by
  refine ⟨?_, ?_, ?_⟩
  · intro i ctx db now d db' h r hr hid
    obtain ⟨hproj, -, -⟩ := updateProjectHandler_ok h
    refine ⟨applyProjectUpdate i r now, ?_, rfl, rfl, rfl, rfl,
      ?_, ?_, ?_, ?_, ?_, ?_, ?_, ?_, ?_, ?_⟩
    · rw [hproj]
      have hmap := List.mem_map_of_mem
        (fun p => if p.id == i.id then applyProjectUpdate i p now else p) hr
      simpa [hid] using hmap
    · intro hn; simp [applyProjectUpdate, hn]
    · intro v hv; simp [applyProjectUpdate, hv]
    · intro hn; simp [applyProjectUpdate, hn]
    · intro v hv; simp [applyProjectUpdate, hv]
    · intro hn; simp [applyProjectUpdate, hn]
    · intro v hv; simp [applyProjectUpdate, hv]
    · intro hn; simp [applyProjectUpdate, hn]
    · intro v hv; simp [applyProjectUpdate, hv]
    · intro hn; simp [applyProjectUpdate, hn]
    · intro v hv; simp [applyProjectUpdate, hv]
  · intro i ctx db now d db' h r hr hid
    obtain ⟨hpages, -, -⟩ := updatePageHandler_ok h
    refine ⟨applyPageUpdate i r now, ?_, rfl, rfl, rfl, rfl,
      ?_, ?_, ?_, ?_, ?_, ?_, ?_, ?_⟩
    · rw [hpages]
      have hmap := List.mem_map_of_mem
        (fun p => if p.id == i.id then applyPageUpdate i p now else p) hr
      simpa [hid] using hmap
    · intro hn; simp [applyPageUpdate, hn]
    · intro v hv; simp [applyPageUpdate, hv]
    · intro hn; simp [applyPageUpdate, hn]
    · intro v hv; simp [applyPageUpdate, hv]
    · intro hn; simp [applyPageUpdate, hn]
    · intro v hv; simp [applyPageUpdate, hv]
    · intro hn; simp [applyPageUpdate, hn]
    · intro v hv; simp [applyPageUpdate, hv]
  · intro i ctx db d db' h r hr hid
    obtain ⟨hpanels, -, -⟩ := updatePanelHandler_ok h
    refine ⟨applyPanelUpdate i r, ?_, rfl, rfl, rfl,
      ?_, ?_, ?_, ?_, ?_, ?_, ?_, ?_, ?_, ?_, ?_, ?_⟩
    · rw [hpanels]
      have hmap := List.mem_map_of_mem
        (fun p => if p.id == i.id then applyPanelUpdate i p else p) hr
      simpa [hid] using hmap
    · intro hn; simp [applyPanelUpdate, hn]
    · intro v hv; simp [applyPanelUpdate, hv]
    · intro hn; simp [applyPanelUpdate, hn]
    · intro v hv; simp [applyPanelUpdate, hv]
    · intro hn; simp [applyPanelUpdate, hn]
    · intro v hv; simp [applyPanelUpdate, hv]
    · intro hn; simp [applyPanelUpdate, hn]
    · intro v hv; simp [applyPanelUpdate, hv]
    · intro hn; simp [applyPanelUpdate, hn]
    · intro v hv; simp [applyPanelUpdate, hv]
    · intro hn; simp [applyPanelUpdate, hn]
    · intro v hv; simp [applyPanelUpdate, hv]

/-- C8 witness: a project created with title, description and genre, then
updated only in its title, keeps the other fields and bumps updatedAt. -/
theorem partial_update_preserves_fields_witness :
    updateProjectHandler ⟨"p1", some "New", none, none, none, none⟩
        ⟨some ⟨"u1"⟩⟩
        (DB.mk [⟨"p1", "u1", "Old", some "D", some "G", none, none, 3, 3⟩] [] [])
        7 =
      Except.ok
        (some ⟨"p1", "u1", "New", some "D", some "G", none, none, 3, 7⟩,
          DB.mk [⟨"p1", "u1", "New", some "D", some "G", none, none, 3, 7⟩] [] []) ∧
    ⟨"p1", "u1", "Old", some "D", some "G", none, none, 3, 3⟩ ∈
      (DB.mk [⟨"p1", "u1", "Old", some "D", some "G", none, none, 3, 3⟩] [] []).projects ∧
    (∃ r' ∈ (DB.mk [⟨"p1", "u1", "New", some "D", some "G", none, none, 3, 7⟩] [] []).projects,
      r'.id = "p1" ∧ r'.userId = "u1" ∧ r'.createdAt = 3 ∧ r'.updatedAt = 7 ∧
      ((some "New" : Option String) = none → r'.title = "Old") ∧
      (∀ v, (some "New" : Option String) = some v → r'.title = v) ∧
      ((none : Option String) = none → r'.description = some "D") ∧
      (∀ v, (none : Option String) = some v → r'.description = some v) ∧
      ((none : Option String) = none → r'.genre = some "G") ∧
      (∀ v, (none : Option String) = some v → r'.genre = some v) ∧
      ((none : Option String) = none → r'.format = none) ∧
      (∀ v, (none : Option String) = some v → r'.format = some v) ∧
      ((none : Option String) = none → r'.targetAudience = none) ∧
      (∀ v, (none : Option String) = some v → r'.targetAudience = some v)) :=
  ⟨by decide, by decide,
    partial_update_preserves_fields.1 ⟨"p1", some "New", none, none, none, none⟩
      ⟨some ⟨"u1"⟩⟩
      (DB.mk [⟨"p1", "u1", "Old", some "D", some "G", none, none, 3, 3⟩] [] [])
      7 (some ⟨"p1", "u1", "New", some "D", some "G", none, none, 3, 7⟩)
      (DB.mk [⟨"p1", "u1", "New", some "D", some "G", none, none, 3, 7⟩] [] [])
      (by decide)
      ⟨"p1", "u1", "Old", some "D", some "G", none, none, 3, 3⟩
      (by decide) rfl⟩

/-! Inverting a successful full action down to its handler. -/

lemma except_map_ok_inv {ε α β : Type} {f : α → β} {x : Except ε α} {b : β}
    (h : Except.map f x = Except.ok b) : ∃ a, x = Except.ok a ∧ b = f a := by
  cases x with
  | error e => simp at h
  | ok a => exact ⟨a, rfl, by simpa using h.symm⟩

lemma createProject_ok_inv {i : CreateProjectInput} {ctx : Ctx} {db : DB}
    {g : String} {now : Nat} {a : ProjectRow × DB}
    (h : createProject i ctx db g now = Except.ok a) :
    createProjectHandler i ctx db g now = Except.ok a := by
  unfold createProject at h
  by_cases hv : createProjectValid i = true
  · rwa [if_pos hv] at h
  · rw [if_neg hv] at h; exact absurd h (by simp)

lemma updateProject_ok_inv {i : UpdateProjectInput} {ctx : Ctx} {db : DB}
    {now : Nat} {a : Option ProjectRow × DB}
    (h : updateProject i ctx db now = Except.ok a) :
    updateProjectHandler i ctx db now = Except.ok a := by
  unfold updateProject at h
  by_cases hb : updateProjectBase i = true
  · rw [if_pos hb] at h
    by_cases hr : updateProjectRefine i = true
    · rwa [if_pos hr] at h
    · rw [if_neg hr] at h; exact absurd h (by simp)
  · rw [if_neg hb] at h; exact absurd h (by simp)

lemma createPage_ok_inv {i : CreatePageInput} {ctx : Ctx} {db : DB}
    {g : String} {now : Nat} {a : PageRow × DB}
    (h : createPage i ctx db g now = Except.ok a) :
    createPageHandler i ctx db g now = Except.ok a := by
  unfold createPage at h
  by_cases hv : createPageValid i = true
  · rwa [if_pos hv] at h
  · rw [if_neg hv] at h; exact absurd h (by simp)

lemma updatePage_ok_inv {i : UpdatePageInput} {ctx : Ctx} {db : DB}
    {now : Nat} {a : Option PageRow × DB}
    (h : updatePage i ctx db now = Except.ok a) :
    updatePageHandler i ctx db now = Except.ok a := by
  unfold updatePage at h
  by_cases hb : updatePageBase i = true
  · rw [if_pos hb] at h
    by_cases hr : updatePageRefine i = true
    · rwa [if_pos hr] at h
    · rw [if_neg hr] at h; exact absurd h (by simp)
  · rw [if_neg hb] at h; exact absurd h (by simp)

lemma deletePage_ok_inv {i : DeletePageInput} {ctx : Ctx} {db : DB}
    {a : Unit × DB} (h : deletePage i ctx db = Except.ok a) :
    deletePageHandler i ctx db = Except.ok a := by
  unfold deletePage at h
  by_cases hv : deletePageValid i = true
  · rwa [if_pos hv] at h
  · rw [if_neg hv] at h; exact absurd h (by simp)

lemma listPages_ok_inv {i : ListPagesInput} {ctx : Ctx} {db : DB}
    {a : (List PageRow × Nat) × DB} (h : listPages i ctx db = Except.ok a) :
    listPagesHandler i ctx db = Except.ok a := by
  unfold listPages at h
  by_cases hv : listPagesValid i = true
  · rwa [if_pos hv] at h
  · rw [if_neg hv] at h; exact absurd h (by simp)

lemma createPanel_ok_inv {i : CreatePanelInput} {ctx : Ctx} {db : DB}
    {g : String} {now : Nat} {a : PanelRow × DB}
    (h : createPanel i ctx db g now = Except.ok a) :
    createPanelHandler i ctx db g now = Except.ok a := by
  unfold createPanel at h
  by_cases hv : createPanelValid i = true
  · rwa [if_pos hv] at h
  · rw [if_neg hv] at h; exact absurd h (by simp)

lemma updatePanel_ok_inv {i : UpdatePanelInput} {ctx : Ctx} {db : DB}
    {a : Option PanelRow × DB} (h : updatePanel i ctx db = Except.ok a) :
    updatePanelHandler i ctx db = Except.ok a := by
  unfold updatePanel at h
  by_cases hb : updatePanelBase i = true
  · rw [if_pos hb] at h
    by_cases hr : updatePanelRefine i = true
    · rwa [if_pos hr] at h
    · rw [if_neg hr] at h; exact absurd h (by simp)
  · rw [if_neg hb] at h; exact absurd h (by simp)

lemma deletePanel_ok_inv {i : DeletePanelInput} {ctx : Ctx} {db : DB}
    {a : Unit × DB} (h : deletePanel i ctx db = Except.ok a) :
    deletePanelHandler i ctx db = Except.ok a := by
  unfold deletePanel at h
  by_cases hv : deletePanelValid i = true
  · rwa [if_pos hv] at h
  · rw [if_neg hv] at h; exact absurd h (by simp)

lemma listPanels_ok_inv {i : ListPanelsInput} {ctx : Ctx} {db : DB}
    {a : (List PanelRow × Nat) × DB} (h : listPanels i ctx db = Except.ok a) :
    listPanelsHandler i ctx db = Except.ok a := by
  unfold listPanels at h
  by_cases hv : listPanelsValid i = true
  · rwa [if_pos hv] at h
  · rw [if_neg hv] at h; exact absurd h (by simp)

/-- Where each project row of the store after one operation comes from:
either a row of the same id and owner already existed, or the operation
was a createProject by the authenticated caller who became the owner. -/
lemma stateAfter_projects (o : Op) (db : DB) :
    ∀ r ∈ (stateAfter o db).projects,
      (∃ r0 ∈ db.projects, r0.id = r.id ∧ r0.userId = r.userId) ∨
      (∃ i ctx g now u, o = Op.createProject i ctx g now ∧ ctx.user = some u ∧
        r.userId = u.id) := by
  intro r hr
  cases ho : opResult o db with
  | error e =>
    have hs : stateAfter o db = db := by simp [stateAfter, ho]
    rw [hs] at hr
    exact Or.inl ⟨r, hr, rfl, rfl⟩
  | ok db2 =>
    have hs : stateAfter o db = db2 := by simp [stateAfter, ho]
    rw [hs] at hr
    cases o with
    | createProject i ctx g now =>
      simp only [opResult] at ho
      obtain ⟨a, ha, hdb2⟩ := except_map_ok_inv ho
      obtain ⟨heq, u, hu, huid⟩ := createProjectHandler_ok (createProject_ok_inv ha)
      rw [hdb2, heq] at hr
      rcases (by simpa using hr : r ∈ db.projects ∨ r = a.1) with h1 | h2
      · exact Or.inl ⟨r, h1, rfl, rfl⟩
      · exact Or.inr ⟨i, ctx, g, now, u, rfl, hu, by rw [h2]; exact huid⟩
    | updateProject i ctx now =>
      simp only [opResult] at ho
      obtain ⟨a, ha, hdb2⟩ := except_map_ok_inv ho
      obtain ⟨hproj, -, -⟩ := updateProjectHandler_ok (updateProject_ok_inv ha)
      rw [hdb2, hproj] at hr
      obtain ⟨r0, hr0, hfr⟩ := List.mem_map.mp hr
      by_cases hc : (r0.id == i.id) = true
      · rw [if_pos hc] at hfr
        exact Or.inl ⟨r0, hr0, by rw [← hfr]; rfl, by rw [← hfr]; rfl⟩
      · rw [if_neg hc] at hfr
        subst hfr
        exact Or.inl ⟨r0, hr0, rfl, rfl⟩
    | listProjects ctx =>
      simp only [opResult] at ho
      obtain ⟨a, ha, hdb2⟩ := except_map_ok_inv ho
      have heq := listProjectsHandler_ok ha
      rw [hdb2, heq] at hr
      exact Or.inl ⟨r, hr, rfl, rfl⟩
    | createPage i ctx g now =>
      simp only [opResult] at ho
      obtain ⟨a, ha, hdb2⟩ := except_map_ok_inv ho
      have heq := createPageHandler_ok (createPage_ok_inv ha)
      rw [hdb2, heq] at hr
      exact Or.inl ⟨r, by simpa using hr, rfl, rfl⟩
    | updatePage i ctx now =>
      simp only [opResult] at ho
      obtain ⟨a, ha, hdb2⟩ := except_map_ok_inv ho
      obtain ⟨-, hproj, -⟩ := updatePageHandler_ok (updatePage_ok_inv ha)
      rw [hdb2, hproj] at hr
      exact Or.inl ⟨r, hr, rfl, rfl⟩
    | deletePage i ctx =>
      simp only [opResult] at ho
      obtain ⟨a, ha, hdb2⟩ := except_map_ok_inv ho
      have heq := deletePageHandler_ok (deletePage_ok_inv ha)
      rw [hdb2, heq] at hr
      exact Or.inl ⟨r, by simpa using hr, rfl, rfl⟩
    | listPages i ctx =>
      simp only [opResult] at ho
      obtain ⟨a, ha, hdb2⟩ := except_map_ok_inv ho
      have heq := listPagesHandler_ok (listPages_ok_inv ha)
      rw [hdb2, heq] at hr
      exact Or.inl ⟨r, hr, rfl, rfl⟩
    | createPanel i ctx g now =>
      simp only [opResult] at ho
      obtain ⟨a, ha, hdb2⟩ := except_map_ok_inv ho
      have heq := createPanelHandler_ok (createPanel_ok_inv ha)
      rw [hdb2, heq] at hr
      exact Or.inl ⟨r, by simpa using hr, rfl, rfl⟩
    | updatePanel i ctx =>
      simp only [opResult] at ho
      obtain ⟨a, ha, hdb2⟩ := except_map_ok_inv ho
      obtain ⟨-, hproj, -⟩ := updatePanelHandler_ok (updatePanel_ok_inv ha)
      rw [hdb2, hproj] at hr
      exact Or.inl ⟨r, hr, rfl, rfl⟩
    | deletePanel i ctx =>
      simp only [opResult] at ho
      obtain ⟨a, ha, hdb2⟩ := except_map_ok_inv ho
      have heq := deletePanelHandler_ok (deletePanel_ok_inv ha)
      rw [hdb2, heq] at hr
      exact Or.inl ⟨r, by simpa using hr, rfl, rfl⟩
    | listPanels i ctx =>
      simp only [opResult] at ho
      obtain ⟨a, ha, hdb2⟩ := except_map_ok_inv ho
      have heq := listPanelsHandler_ok (listPanels_ok_inv ha)
      rw [hdb2, heq] at hr
      exact Or.inl ⟨r, hr, rfl, rfl⟩

/-- C10: createProject inserts a row owned by the authenticated caller,
updateProject never touches the userId column, and consequently after any
sequence of operations every project row's owner is either its owner in
the initial store or the user whose createProject call inserted it. -/
theorem project_owner_invariant :
    (∀ (i : CreateProjectInput) (ctx : Ctx) (db : DB) (g : String) (now : Nat)
        (d : ProjectRow) (db' : DB),
      createProjectHandler i ctx db g now = Except.ok (d, db') →
      db'.projects = db.projects ++ [d] ∧
      ∃ u, ctx.user = some u ∧ d.userId = u.id) ∧
    (∀ (i : UpdateProjectInput) (ctx : Ctx) (db : DB) (now : Nat)
        (d : Option ProjectRow) (db' : DB),
      updateProjectHandler i ctx db now = Except.ok (d, db') →
      db'.projects.map (fun r => (r.id, r.userId)) =
        db.projects.map (fun r => (r.id, r.userId))) ∧
    (∀ (ops : List Op) (db : DB) (r : ProjectRow),
      r ∈ (runOps ops db).projects →
      (∃ r0 ∈ db.projects, r0.id = r.id ∧ r0.userId = r.userId) ∨
      (∃ i ctx g now u, Op.createProject i ctx g now ∈ ops ∧
        ctx.user = some u ∧ r.userId = u.id)) := by
  refine ⟨?_, ?_, ?_⟩
  · intro i ctx db g now d db' h
    obtain ⟨heq, u, hu, huid⟩ := createProjectHandler_ok h
    exact ⟨by rw [heq], u, hu, huid⟩
  · intro i ctx db now d db' h
    obtain ⟨hproj, -, -⟩ := updateProjectHandler_ok h
    rw [hproj, List.map_map]
    apply List.map_congr_left
    intro p hp
    by_cases hc : (p.id == i.id) = true
    · simp only [Function.comp, if_pos hc]
      have hid : (applyProjectUpdate i p now).id = p.id := rfl
      have huid : (applyProjectUpdate i p now).userId = p.userId := rfl
      rw [hid, huid]
    · simp only [Function.comp, if_neg hc]
  · intro ops
    induction ops with
    | nil =>
      intro db r hr
      simp only [runOps, List.foldl_nil] at hr
      exact Or.inl ⟨r, hr, rfl, rfl⟩
    | cons o rest ih =>
      intro db r hr
      have hstep : runOps (o :: rest) db = runOps rest (stateAfter o db) := by
        simp [runOps]
      rw [hstep] at hr
      rcases ih (stateAfter o db) r hr with h1 | h2
      · obtain ⟨r0, hr0, hid, huid⟩ := h1
        rcases stateAfter_projects o db r0 hr0 with g1 | g2
        · obtain ⟨r1, hr1, hid1, huid1⟩ := g1
          exact Or.inl ⟨r1, hr1, hid1.trans hid, huid1.trans huid⟩
        · obtain ⟨i, ctx, g, now, u, hoeq, hu, huid2⟩ := g2
          refine Or.inr ⟨i, ctx, g, now, u, ?_, hu, huid.symm.trans huid2⟩
          rw [← hoeq]
          exact List.mem_cons_self o rest
      · obtain ⟨i, ctx, g, now, u, hmem, hu, huid⟩ := h2
        exact Or.inr ⟨i, ctx, g, now, u, List.mem_cons_of_mem o hmem, hu, huid⟩

/-- C10 witness: starting from an empty store, one authenticated
createProject call yields a store whose single project row is owned by
the caller; the trace invariant attributes the row to that call. -/
theorem project_owner_invariant_witness :
    (⟨"p1", "u1", "T", none, none, none, none, 0, 0⟩ : ProjectRow) ∈
      (runOps [Op.createProject ⟨"T", none, none, none, none⟩
        ⟨some ⟨"u1"⟩⟩ "p1" 0] (DB.mk [] [] [])).projects ∧
    ((∃ r0 ∈ (DB.mk [] [] []).projects, r0.id = "p1" ∧ r0.userId = "u1") ∨
      (∃ i ctx g now u,
        Op.createProject i ctx g now ∈
          [Op.createProject ⟨"T", none, none, none, none⟩ ⟨some ⟨"u1"⟩⟩ "p1" 0] ∧
        ctx.user = some u ∧
        ("u1" : String) = u.id)) :=
  ⟨by decide,
    project_owner_invariant.2.2
      [Op.createProject ⟨"T", none, none, none, none⟩ ⟨some ⟨"u1"⟩⟩ "p1" 0]
      (DB.mk [] [] []) ⟨"p1", "u1", "T", none, none, none, none, 0, 0⟩
      (by decide)⟩

end ComicStoryboarder
